import Mathlib

/-!
Verification development for the `api/modules/city/views.py` module of the
`annp89/server` repository: a shallow embedding of its eight HTTP handlers
over an explicit relational store, followed by theorems about each handler.
-/

namespace CityApi

/-- A `City` row: primary key, name, and a mutable optional nickname
(`api.models.City`; the model file is not part of the sources, the field
set follows the spec data model: identifier, name, nickname). -/
structure City where
  id : Nat
  city_name : String
  nickname : Option String
deriving Repr, DecidableEq

/-- A `CityImage` row: belongs to a city by id, holds an opaque image reference. -/
structure CityImage where
  id : Nat
  city : Nat
  image : String
deriving Repr, DecidableEq

/-- A `CityFact` row: belongs to a city by id, holds a short text fact. -/
structure CityFact where
  id : Nat
  city : Nat
  fact : String
deriving Repr, DecidableEq

/-- A `CityVisitLog` row: records that a user viewed a city detail page
(`CityVisitLog(city=city, user=request.user)` in `get_city`). -/
structure CityVisitLog where
  city : Nat
  user : Nat
deriving Repr, DecidableEq

/-- A `Trip` row: associates its many-to-many `users` set with one city
(`Trip.objects.filter(city=city, users=request.user)` compares the city
foreign key and membership in `users`). -/
structure Trip where
  city : City
  users : List Nat
deriving Repr, DecidableEq

/-- The relational store the handlers share: one table per model, plus the
set of existing user ids (`django.contrib.auth.models.User`). -/
structure Store where
  cities : List City
  images : List CityImage
  facts : List CityFact
  logs : List CityVisitLog
  trips : List Trip
  users : List Nat
deriving Repr, DecidableEq

/-- Condensed projection of a city, the reduced field set used by list
views. Modelled from the spec: `CityCondensedSerializer` is not among the
sources; the glossary describes it as a reduced field set of the entity. -/
structure CityCondensed where
  id : Nat
  city_name : String
deriving Repr, DecidableEq

/-- Full projection of a city returned by `get_city`. Modelled from the
spec: `CitySerializer` is not among the sources; the spec data model lists
identifier, name, nickname, and the per-request has-visited flag. -/
structure CityFull where
  id : Nat
  city_name : String
  nickname : Option String
  has_visited : Bool
deriving Repr, DecidableEq

/-- The JSON-ish body of an HTTP response, one constructor per shape the
handlers produce. -/
inductive Body where
  | empty : Body
  | text : String → Body
  | texts : List String → Body
  | condensedList : List CityCondensed → Body
  | fullCity : CityFull → Body
  | imageList : List CityImage → Body
  | factList : List CityFact → Body
  | dict : List (String × String) → Body
deriving Repr, DecidableEq

/-- An HTTP response: status code and body. -/
structure Response where
  status : Nat
  body : Body
deriving Repr, DecidableEq

/-- Serialize a city with `CityCondensedSerializer`. -/
def condensed (c : City) : CityCondensed := ⟨c.id, c.city_name⟩

/-- Number of visit-log rows referencing a city: the `Count('logs')`
annotation of `get_all_cities` (the reverse foreign key from
`CityVisitLog.city`). -/
def visitCount (s : Store) (cid : Nat) : Nat :=
  (s.logs.filter (fun lg => lg.city = cid)).length

/-- Order used by `order_by('-visit_count')`: a city-count pair precedes
another when its count is at least as large (descending by count). -/
def countGe (a b : City × Nat) : Prop := b.2 ≤ a.2

instance : DecidableRel countGe := fun a b => Nat.decLe b.2 a.2

instance : IsTotal (City × Nat) countGe := ⟨fun a b => Nat.le_total b.2 a.2⟩

instance : IsTrans (City × Nat) countGe := ⟨fun _ _ _ h1 h2 => Nat.le_trans h2 h1⟩

/-- The queryset of `get_all_cities`: every city annotated with its visit
count, ordered descending by count, truncated to `n`. -/
def topCitiesQuery (s : Store) (n : Nat) : List (City × Nat) :=
  (List.insertionSort countGe (s.cities.map (fun c => (c, visitCount s c.id)))).take n

/-- Handler `get_all_cities`: returns the condensed projections of the at
most `n` most visited cities with status 200; reads only. -/
def get_all_cities (s : Store) (n : Nat) : Response × Store :=
  (⟨200, .condensedList ((topCitiesQuery s n).map (fun p => condensed p.1))⟩, s)

/-- First city row with the given primary key, the embedding of
`City.objects.get(pk=city_id)` (`none` is the `DoesNotExist` case). -/
def findCity (s : Store) (cid : Nat) : Option City :=
  s.cities.find? (fun c => c.id = cid)

/-- The `has_visited` flag of `get_city`: whether some trip of the
requesting user points at this city
(`Trip.objects.filter(city=city, users=request.user).exists()`). -/
def hasVisited (s : Store) (userId cid : Nat) : Bool :=
  s.trips.any (fun t => t.city.id = cid && t.users.contains userId)

/-- Handler `get_city`: look up the city by primary key (404 when absent),
compute `has_visited`, then best-effort insert a visit log — `insertOk`
says whether the `save()` succeeds; its failure is swallowed by the bare
`except Exception: pass` — and return the full projection with status 200. -/
def get_city (s : Store) (userId cid : Nat) (insertOk : Bool) : Response × Store :=
  match findCity s cid with
  | none => (⟨404, .empty⟩, s)
  | some city =>
    let s2 := if insertOk then { s with logs := s.logs ++ [⟨city.id, userId⟩] } else s
    (⟨200, .fullCity ⟨city.id, city.city_name, city.nickname, hasVisited s userId city.id⟩⟩, s2)

/-- The characters of a string, lowercased. -/
def lowerChars (s : String) : List Char := s.data.map Char.toLower

/-- Case-insensitive starts-with, the `city_name__istartswith` lookup:
lowercase both strings and compare the prefix character by character. -/
def istartswith (name pre : String) : Bool :=
  (lowerChars pre).isPrefixOf (lowerChars name)

/-- The queryset of `get_city_by_name`: cities whose name starts with the
prefix case-insensitively, truncated to 5. -/
def cityNameQuery (s : Store) (pre : String) : List City :=
  (s.cities.filter (fun c => istartswith c.city_name pre)).take 5

/-- Handler `get_city_by_name`: condensed projections of at most 5 cities
matching the prefix, status 200; reads only. -/
def get_city_by_name (s : Store) (pre : String) : Response × Store :=
  (⟨200, .condensedList ((cityNameQuery s pre).map condensed)⟩, s)

/-- Handler `get_all_city_images`: `CityImage.objects.filter(city=city_id)`
serialized with status 200. The `except CityImage.DoesNotExist` branch of
the source has no counterpart: a `filter` call is total, it never raises
`DoesNotExist`, so the embedding is the filter itself. -/
def get_all_city_images (s : Store) (cid : Nat) : Response × Store :=
  (⟨200, .imageList (s.images.filter (fun i => i.city = cid))⟩, s)

/-- Handler `get_all_city_facts`: `CityFact.objects.filter(city=city_id)`
serialized with status 200; the `DoesNotExist` branch is likewise dead. -/
def get_all_city_facts (s : Store) (cid : Nat) : Response × Store :=
  (⟨200, .factList (s.facts.filter (fun f => f.city = cid))⟩, s)

/-- A page entry of the wiki response: its `extract` key may be absent. -/
structure WikiPage where
  extract : Option String
deriving Repr, DecidableEq

/-- The part of the wiki JSON the handler reads: the `query.pages` object,
an association of page-number keys to pages. -/
structure WikiData where
  pages : List (String × WikiPage)
deriving Repr, DecidableEq

/-- Generic downstream failure response. Modelled from the spec:
`api.commonresponses.DOWNSTREAM_ERROR_RESPONSE` is not among the sources;
the spec calls it the single generic downstream-service-unavailable error,
status 503. -/
def DOWNSTREAM_ERROR_RESPONSE : Response :=
  ⟨503, .text "Downstream service unavailable"⟩

/-- The fallible enrichment pipeline of `get_city_information` after the
city lookup, parameterized by its three external steps: `fetch` stands for
`requests.get` plus `.json()` (`none` on any network or parse failure),
`clean` for `clean_wiki_extract` and `extractDict` for `extract_as_dict`
(both from `api.modules.city.utils`, not among the sources, hence oracles
with `none` standing for a raised exception). The body mirrors the source:
take the first key of `query.pages`, index `pages` with it, read its
`extract`, clean it, and structure it as a dictionary; every failure is
`none`, as every exception is caught by the same `except Exception`. -/
def wikiPipeline (fetch : String → Option WikiData)
    (clean : String → Option String)
    (extractDict : String → Option (List (String × String)))
    (name : String) : Option (List (String × String)) :=
  (fetch name).bind (fun data =>
    ((data.pages.map Prod.fst).head?).bind (fun key =>
      (data.pages.lookup key).bind (fun page =>
        page.extract.bind (fun ex =>
          (clean ex).bind extractDict))))

/-- Handler `get_city_information`: look up the city (404 with the message
"City does not exist" when absent); then run the enrichment pipeline on the
city name — any failure collapses to `DOWNSTREAM_ERROR_RESPONSE`, full
success returns the section dictionary with status 200. Reads only. -/
def get_city_information (s : Store) (cid : Nat)
    (fetch : String → Option WikiData)
    (clean : String → Option String)
    (extractDict : String → Option (List (String × String))) : Response × Store :=
  match findCity s cid with
  | none => (⟨404, .text "City does not exist"⟩, s)
  | some city =>
    match wikiPipeline fetch clean extractDict city.city_name with
    | none => (DOWNSTREAM_ERROR_RESPONSE, s)
    | some d => (⟨200, .dict d⟩, s)

/-- Target-user resolution of `get_visited_city`: `if not user_id:
user_id = request.user.id` substitutes the requesting user for every falsy
value of the parameter — absent (`None`) or `0`. -/
def resolveUser (requesterId : Nat) : Option Nat → Nat
  | none => requesterId
  | some 0 => requesterId
  | some (n + 1) => n + 1

/-- The distinct cities of the trips of `target`: the Python set built by
`for trip in trips: cities.add(trip.city)` over
`Trip.objects.filter(users=user_id)`. -/
def visitedCities (s : Store) (target : Nat) : List City :=
  ((s.trips.filter (fun t => t.users.contains target)).map (fun t => t.city)).dedup

/-- Handler `get_visited_city`: resolve the target user (falsy parameter
means the requester), 404 when no such user exists, otherwise the condensed
projections of the distinct cities of the target's trips with status 200.
Reads only. -/
def get_visited_city (s : Store) (requesterId : Nat) (userId : Option Nat) :
    Response × Store :=
  let target := resolveUser requesterId userId
  if s.users.contains target then
    (⟨200, .condensedList ((visitedCities s target).map condensed)⟩, s)
  else
    (⟨404, .text "User does not exists."⟩, s)

/-- Truthiness of `request.POST.get('nickname', None)`: Python treats both
`None` and the empty string as falsy. -/
def truthyStr : Option String → Bool
  | none => false
  | some s => s ≠ ""

/-- Effect of `city.nickname = nickname; city.save()` on the store: the
row with the saved primary key gets the new nickname, every other row and
table is untouched. -/
def setNickname (s : Store) (c : Nat) (n : String) : Store :=
  { s with cities := s.cities.map (fun ct => if ct.id = c then { ct with nickname := some n } else ct) }

/-- Handler `add_city_nickname`. `cid` is the parsed `city_id` field
(`none` when the field is missing or empty, both falsy in Python), `nick`
the raw `nickname` field. `saveErr` stands for the outcome of
`city.save()`: `none` on success, `some e` when it raises an exception with
text `e` (caught by `except Exception as e` and surfaced as a 400). On
success the nickname is persisted on the row with that primary key. The
404 body is the one-element tuple the source builds with its trailing
comma. -/
def add_city_nickname (s : Store) (cid : Option Nat) (nick : Option String)
    (saveErr : Option String) : Response × Store :=
  if cid.isSome && truthyStr nick then
    match cid, nick with
    | some c, some n =>
      match findCity s c with
      | none => (⟨404, .texts ["City does not exist"]⟩, s)
      | some _ =>
        match saveErr with
        | some e => (⟨400, .text e⟩, s)
        | none =>
          (⟨201, .text "Successfully added nickname."⟩, setNickname s c n)
    | _, _ => (⟨400, .text "Missing parameters in request. Send city_id, nickname"⟩, s)
  else
    (⟨400, .text "Missing parameters in request. Send city_id, nickname"⟩, s)

/-- A small concrete store used to instantiate the theorems below:
city 1 has two visit logs, city 2 one, city 3 none; user 7 has a trip to
city 1, user 9 trips to cities 1 and 2, user 8 no trips. -/
def sampleStore : Store where
  cities := [⟨1, "Paris", none⟩, ⟨2, "Pune", some "PN"⟩, ⟨3, "Lyon", none⟩]
  images := [⟨10, 1, "img1"⟩, ⟨11, 2, "img2"⟩]
  facts := [⟨20, 1, "fact1"⟩]
  logs := [⟨1, 7⟩, ⟨1, 8⟩, ⟨2, 7⟩]
  trips := [⟨⟨1, "Paris", none⟩, [7, 9]⟩, ⟨⟨2, "Pune", some "PN"⟩, [9]⟩]
  users := [7, 8, 9]

/-- Claim C8: for every city id, valid or not, `get_all_city_images` and
`get_all_city_facts` answer status 200 with the possibly empty list of
rows whose city field equals that id; neither ever returns 404 (the
`DoesNotExist` branches are dead, a filter query cannot raise). -/
theorem claim_C8_theorem (s : Store) (cid : Nat) :
    get_all_city_images s cid = (⟨200, .imageList (s.images.filter (fun i => i.city = cid))⟩, s) ∧
    get_all_city_facts s cid = (⟨200, .factList (s.facts.filter (fun f => f.city = cid))⟩, s) ∧
    ((get_all_city_images s cid).1.status == 404) = false ∧
    ((get_all_city_facts s cid).1.status == 404) = false := by
  exact ⟨rfl, rfl, rfl, rfl⟩

/-- Claim C6: `get_all_cities` returns at most `n` cities, each annotated
with its visit count, ordered descending by visit count, and serializes
exactly that queryset. -/
theorem claim_C6_theorem (s : Store) (n : Nat) :
    (topCitiesQuery s n).length ≤ n ∧
    List.Sorted countGe (topCitiesQuery s n) ∧
    (∀ p ∈ topCitiesQuery s n, p.2 = visitCount s p.1.id) ∧
    get_all_cities s n =
      (⟨200, .condensedList ((topCitiesQuery s n).map (fun p => condensed p.1))⟩, s) := by
  refine ⟨?_, ?_, ?_, rfl⟩
  · simp [topCitiesQuery, List.length_take]
  · exact List.Pairwise.sublist (List.take_sublist _ _) (List.sorted_insertionSort countGe _)
  · intro p hp
    have h1 : p ∈ List.insertionSort countGe (s.cities.map (fun c => (c, visitCount s c.id))) :=
      List.take_subset _ _ hp
    have h2 : p ∈ s.cities.map (fun c => (c, visitCount s c.id)) :=
      (List.perm_insertionSort countGe _).subset h1
    obtain ⟨c, _, rfl⟩ := List.mem_map.mp h2
    rfl

/-- Claim C6, concrete instance: in the sample store the most visited city
carries its correct visit count. -/
theorem claim_C6_witness :
    ((⟨1, "Paris", none⟩ : City), 2).2 = visitCount sampleStore ((⟨1, "Paris", none⟩ : City), 2).1.id :=
  (claim_C6_theorem sampleStore 2).2.2.1 _ (by decide)

/-- Claim C7: `get_city_by_name` returns at most 5 cities, every returned
city comes from the store and its name starts with the given prefix under
case-insensitive comparison, and the response is status 200 with exactly
the condensed projections of that queryset (so no non-matching city is
included). -/
theorem claim_C7_theorem (s : Store) (pre : String) :
    (cityNameQuery s pre).length ≤ 5 ∧
    (∀ c ∈ cityNameQuery s pre,
      c ∈ s.cities ∧ (lowerChars pre).isPrefixOf (lowerChars c.city_name) = true) ∧
    get_city_by_name s pre =
      (⟨200, .condensedList ((cityNameQuery s pre).map condensed)⟩, s) := by
  refine ⟨?_, ?_, rfl⟩
  · simp [cityNameQuery, List.length_take]
  · intro c hc
    have h1 : c ∈ s.cities.filter (fun c => istartswith c.city_name pre) :=
      List.take_subset _ _ hc
    have h2 := List.mem_filter.mp h1
    exact ⟨h2.1, h2.2⟩

/-- Claim C7, concrete instance: the prefix "pA" matches "Paris" in the
sample store, case-insensitively. -/
theorem claim_C7_witness :
    (⟨1, "Paris", none⟩ : City) ∈ sampleStore.cities ∧
    (lowerChars "pA").isPrefixOf (lowerChars (⟨1, "Paris", none⟩ : City).city_name) = true :=
  (claim_C7_theorem sampleStore "pA").2.1 _ (by decide)

/-- Claim C3: `get_city` answers 404 exactly when no city carries the
requested id; when the row is found it answers 200 with the full
projection of that row, whose `has_visited` flag is true exactly when the
requesting user has at least one trip to that city. -/
theorem claim_C3_theorem (s : Store) (u cid : Nat) (insertOk : Bool) :
    ((∀ c ∈ s.cities, c.id ≠ cid) → (get_city s u cid insertOk).1 = ⟨404, .empty⟩) ∧
    (∀ c, findCity s cid = some c →
      (get_city s u cid insertOk).1 =
        ⟨200, .fullCity ⟨c.id, c.city_name, c.nickname, hasVisited s u c.id⟩⟩ ∧
      (hasVisited s u c.id = true ↔ ∃ t ∈ s.trips, t.city.id = c.id ∧ u ∈ t.users)) ∧
    ((∃ c ∈ s.cities, c.id = cid) → (get_city s u cid insertOk).1.status = 200) := by
  refine ⟨?_, ?_, ?_⟩
  · intro h
    have hn : findCity s cid = none := by
      apply List.find?_eq_none.mpr
      intro c hc
      simp [h c hc]
    simp [get_city, hn]
  · intro c hc
    constructor
    · cases insertOk <;> simp [get_city, hc]
    · simp [hasVisited, List.any_eq_true]
  · rintro ⟨c, hc, rfl⟩
    cases hf : findCity s c.id with
    | none =>
      exfalso
      have := List.find?_eq_none.mp hf c hc
      simp at this
    | some c2 => cases insertOk <;> simp [get_city, hf]

/-- Claim C3, concrete instance: fetching city 1 of the sample store as
user 7 answers 200 with the full projection, and the flag is on since
user 7 has a trip to Paris. -/
theorem claim_C3_witness :
    (get_city sampleStore 7 1 true).1 =
      ⟨200, .fullCity ⟨1, "Paris", none, hasVisited sampleStore 7 1⟩⟩ ∧
    (hasVisited sampleStore 7 1 = true ↔
      ∃ t ∈ sampleStore.trips, t.city.id = 1 ∧ 7 ∈ t.users) :=
  (claim_C3_theorem sampleStore 7 1 true).2.1 ⟨1, "Paris", none⟩ (by decide)

/-- Claim C4: the response of `get_city` is the same whether the
visit-log insert succeeds or raises — the exception is swallowed by the
`except Exception: pass` and only the stored logs can differ. -/
theorem claim_C4_theorem (s : Store) (u cid : Nat) (_exists : ∃ c ∈ s.cities, c.id = cid) :
    (get_city s u cid true).1 = (get_city s u cid false).1 := by
  cases hf : findCity s cid <;> simp [get_city, hf]

/-- Claim C4, concrete instance: for city 1 of the sample store the
response does not depend on the insert outcome. -/
theorem claim_C4_witness :
    (get_city sampleStore 7 1 true).1 = (get_city sampleStore 7 1 false).1 :=
  claim_C4_theorem sampleStore 7 1 ⟨⟨1, "Paris", none⟩, by decide, rfl⟩

/-- Claim C5: `get_visited_city` answers 404 when the resolved target user
does not exist; otherwise it answers 200 with the condensed projections of
the distinct cities of the target's trips — each city listed at most once,
a city listed exactly when some trip of the target points at it, and the
empty list when the target has no trips. -/
theorem claim_C5_theorem (s : Store) (req : Nat) (uid : Option Nat) :
    (resolveUser req uid ∉ s.users →
      (get_visited_city s req uid).1 = ⟨404, .text "User does not exists."⟩) ∧
    (resolveUser req uid ∈ s.users →
      (get_visited_city s req uid).1 =
        ⟨200, .condensedList ((visitedCities s (resolveUser req uid)).map condensed)⟩) ∧
    (visitedCities s (resolveUser req uid)).Nodup ∧
    (∀ c, c ∈ visitedCities s (resolveUser req uid) ↔
      ∃ t ∈ s.trips, resolveUser req uid ∈ t.users ∧ t.city = c) ∧
    ((∀ t ∈ s.trips, resolveUser req uid ∉ t.users) →
      visitedCities s (resolveUser req uid) = []) := by
  refine ⟨?_, ?_, ?_, ?_, ?_⟩
  · intro h
    simp [get_visited_city, h]
  · intro h
    simp [get_visited_city, h]
  · exact List.nodup_dedup _
  · intro c
    simp [visitedCities, List.mem_dedup, List.mem_filter, List.mem_map]
    constructor
    · rintro ⟨t, ⟨ht, hu⟩, rfl⟩
      exact ⟨t, ht, hu, rfl⟩
    · rintro ⟨t, ht, hu, rfl⟩
      exact ⟨t, ⟨ht, hu⟩, rfl⟩
  · intro h
    have hf : s.trips.filter (fun t => t.users.contains (resolveUser req uid)) = [] := by
      apply List.filter_eq_nil_iff.mpr
      intro t ht
      simpa using h t ht
    unfold visitedCities
    rw [hf]
    rfl

/-- Claim C5, concrete instance: user 8 of the sample store exists and has
no trips, so the visited-cities response is the empty list with 200. -/
theorem claim_C5_witness :
    (get_visited_city sampleStore 7 (some 8)).1 =
      ⟨200, .condensedList ((visitedCities sampleStore (resolveUser 7 (some 8))).map condensed)⟩ ∧
    visitedCities sampleStore (resolveUser 7 (some 8)) = [] :=
  ⟨(claim_C5_theorem sampleStore 7 (some 8)).2.1 (by decide),
   (claim_C5_theorem sampleStore 7 (some 8)).2.2.2.2 (by decide)⟩

/-- Claim C9: a falsy explicit user id — absent or zero — is replaced by
the requesting user before the existence check, so passing 0 is
indistinguishable from omitting the parameter, while a nonzero id is kept. -/
theorem claim_C9_theorem (s : Store) (req : Nat) :
    resolveUser req none = req ∧
    resolveUser req (some 0) = req ∧
    get_visited_city s req (some 0) = get_visited_city s req none ∧
    (∀ n, n ≠ 0 → resolveUser req (some n) = n) := by
    refine ⟨rfl, rfl, rfl, ?_⟩
    intro n hn
    cases n with
    | zero => exact absurd rfl hn
    | succ m => rfl

/-- Claim C9, concrete instance: a nonzero explicit user id is kept as the
target. -/
theorem claim_C9_witness : resolveUser 7 (some 5) = 5 :=
  (claim_C9_theorem sampleStore 7).2.2.2 5 (by decide)

/-- Claim C2: `get_city_information` answers 404 when the city is absent;
when the city is found, any failure of the enrichment pipeline — outbound
call, JSON parsing, key extraction, absent extract, cleaning, sectioning —
collapses to the single generic downstream response with status 503 and no
partial data, and only full success yields status 200 with the section
dictionary. -/
theorem claim_C2_theorem (s : Store) (cid : Nat)
    (fetch : String → Option WikiData) (clean : String → Option String)
    (extractDict : String → Option (List (String × String))) :
    DOWNSTREAM_ERROR_RESPONSE.status = 503 ∧
    ((∀ c ∈ s.cities, c.id ≠ cid) →
      get_city_information s cid fetch clean extractDict = (⟨404, .text "City does not exist"⟩, s)) ∧
    (∀ c, findCity s cid = some c →
      (wikiPipeline fetch clean extractDict c.city_name = none →
        get_city_information s cid fetch clean extractDict = (DOWNSTREAM_ERROR_RESPONSE, s)) ∧
      (∀ d, wikiPipeline fetch clean extractDict c.city_name = some d →
        get_city_information s cid fetch clean extractDict = (⟨200, .dict d⟩, s))) := by
  refine ⟨rfl, ?_, ?_⟩
  · intro h
    have hn : findCity s cid = none := by
      apply List.find?_eq_none.mpr
      intro c hc
      simp [h c hc]
    simp [get_city_information, hn]
  · intro c hc
    constructor
    · intro hw
      simp [get_city_information, hc, hw]
    · intro d hw
      simp [get_city_information, hc, hw]

/-- Claim C2, concrete instance: with a downed outbound service (the fetch
oracle always fails) the enrichment of city 1 of the sample store is the
generic downstream response. -/
theorem claim_C2_witness :
    get_city_information sampleStore 1 (fun _ => none) (fun e => some e) (fun _ => some []) =
      (DOWNSTREAM_ERROR_RESPONSE, sampleStore) :=
  ((claim_C2_theorem sampleStore 1 (fun _ => none) (fun e => some e) (fun _ => some [])).2.2
    ⟨1, "Paris", none⟩ (by decide)).1 rfl

/-- Claim C10: the six read handlers return the store untouched; `get_city`
either leaves the store unchanged or appends exactly one visit-log row for
the requested city and user; `add_city_nickname` never touches images,
facts, logs, trips or users and can change at most the nickname fields of
the city rows. -/
theorem claim_C10_theorem (s : Store) (n u cid req : Nat) (pre : String)
    (uid : Option Nat)
    (fetch : String → Option WikiData) (clean : String → Option String)
    (extractDict : String → Option (List (String × String)))
    (insertOk : Bool) (cidN : Option Nat) (nick : Option String) (saveErr : Option String) :
    (get_all_cities s n).2 = s ∧
    (get_city_by_name s pre).2 = s ∧
    (get_all_city_images s cid).2 = s ∧
    (get_all_city_facts s cid).2 = s ∧
    (get_city_information s cid fetch clean extractDict).2 = s ∧
    (get_visited_city s req uid).2 = s ∧
    ((get_city s u cid insertOk).2 = s ∨
      (get_city s u cid insertOk).2 = { s with logs := s.logs ++ [⟨cid, u⟩] }) ∧
    (add_city_nickname s cidN nick saveErr).2.images = s.images ∧
    (add_city_nickname s cidN nick saveErr).2.facts = s.facts ∧
    (add_city_nickname s cidN nick saveErr).2.logs = s.logs ∧
    (add_city_nickname s cidN nick saveErr).2.trips = s.trips ∧
    (add_city_nickname s cidN nick saveErr).2.users = s.users ∧
    (add_city_nickname s cidN nick saveErr).2.cities.map (fun c => (c.id, c.city_name)) =
      s.cities.map (fun c => (c.id, c.city_name)) := by
  refine ⟨rfl, rfl, rfl, rfl, ?_, ?_, ?_, ?_⟩
  · cases hf : findCity s cid with
    | none => simp [get_city_information, hf]
    | some c =>
      cases hw : wikiPipeline fetch clean extractDict c.city_name with
      | none => simp [get_city_information, hf, hw]
      | some d => simp [get_city_information, hf, hw]
  · unfold get_visited_city
    by_cases h : resolveUser req uid ∈ s.users <;> simp [h]
  · unfold get_city
    cases hf : findCity s cid with
    | none => exact Or.inl rfl
    | some c =>
      have hid : c.id = cid := by
        have := List.find?_some hf
        simpa using this
      cases insertOk with
      | false => exact Or.inl rfl
      | true =>
        right
        simp [hid]
  · by_cases h : (cidN.isSome && truthyStr nick) = true
    · rw [Bool.and_eq_true] at h
      obtain ⟨c, rfl⟩ := Option.isSome_iff_exists.mp h.1
      cases nick with
      | none => simp [truthyStr] at h
      | some nk =>
        have hnk : ¬(nk = "") := by simpa [truthyStr] using h.2
        cases hf : findCity s c with
        | none => simp [add_city_nickname, truthyStr, hnk, hf]
        | some ct =>
          cases saveErr with
          | some e => simp [add_city_nickname, truthyStr, hnk, hf]
          | none =>
            refine ⟨?_, ?_, ?_, ?_, ?_, ?_⟩ <;>
              simp [add_city_nickname, truthyStr, hnk, hf, setNickname, List.map_map]
            intro x _
            by_cases hx : x.id = c <;> simp [hx]
    · have h2 : (cidN.isSome && truthyStr nick) = false := by
        simpa using h
      simp [add_city_nickname, h2]

/-- Claim C1, counterexample to the claim as stated: with no city of id 1
in the store and a request body carrying both fields — city_id 1 and the
nickname present but equal to the empty string — the claim prescribes 404
(both fields are present and the city is absent), yet the handler answers
400 with the missing-parameters message, because the Python falsy test
`not nickname` treats the empty string like an absent field; the store is
untouched. -/
theorem claim_C1_counterexample :
    (add_city_nickname ⟨[], [], [], [], [], []⟩ (some 1) (some "") none).1.status = 400 ∧
    ((add_city_nickname ⟨[], [], [], [], [], []⟩ (some 1) (some "") none).1.status == 404) = false ∧
    (add_city_nickname ⟨[], [], [], [], [], []⟩ (some 1) (some "") none).1.body =
      .text "Missing parameters in request. Send city_id, nickname" ∧
    (add_city_nickname ⟨[], [], [], [], [], []⟩ (some 1) (some "") none).2 =
      ⟨[], [], [], [], [], []⟩ := by
  decide

/-- Claim C1 as amended: a missing city_id, a missing nickname, or an
empty-string nickname (falsy, hence treated as missing) yields 400 with
the descriptive message and persists nothing; both fields present with a
non-empty nickname but no city of that id yields 404 and persists
nothing; a save failure yields 400 whose body is the error text and
persists nothing; city found and save succeeded yields 201 with the
success message and persists the nickname on exactly the rows of that id. -/
theorem claim_C1_theorem (s : Store) (cid : Option Nat) (nick : Option String)
    (saveErr : Option String) :
    ((cid = none ∨ nick = none ∨ nick = some "") →
      add_city_nickname s cid nick saveErr =
        (⟨400, .text "Missing parameters in request. Send city_id, nickname"⟩, s)) ∧
    (∀ c n, cid = some c → nick = some n → n ≠ "" →
      ((∀ ct ∈ s.cities, ct.id ≠ c) →
        add_city_nickname s cid nick saveErr = (⟨404, .texts ["City does not exist"]⟩, s)) ∧
      (∀ e, (findCity s c).isSome = true → saveErr = some e →
        add_city_nickname s cid nick saveErr = (⟨400, .text e⟩, s)) ∧
      ((findCity s c).isSome = true → saveErr = none →
        add_city_nickname s cid nick saveErr =
          (⟨201, .text "Successfully added nickname."⟩, setNickname s c n) ∧
        ∀ ct ∈ (add_city_nickname s cid nick saveErr).2.cities,
          ct.id = c → ct.nickname = some n)) := by
  constructor
  · rintro (rfl | rfl | rfl) <;> simp [add_city_nickname, truthyStr]
  · rintro c n rfl rfl hn
    refine ⟨?_, ?_, ?_⟩
    · intro h
      have hf : findCity s c = none := by
        apply List.find?_eq_none.mpr
        intro ct hct
        simp [h ct hct]
      simp [add_city_nickname, truthyStr, hn, hf]
    · rintro e hs rfl
      obtain ⟨ct, hf⟩ := Option.isSome_iff_exists.mp hs
      simp [add_city_nickname, truthyStr, hn, hf]
    · rintro hs rfl
      obtain ⟨ct, hf⟩ := Option.isSome_iff_exists.mp hs
      have he : add_city_nickname s (some c) (some n) none =
          (⟨201, .text "Successfully added nickname."⟩, setNickname s c n) := by
        simp [add_city_nickname, truthyStr, hn, hf]
      refine ⟨he, ?_⟩
      rw [he]
      intro x hx hid
      obtain ⟨y, _, rfl⟩ := List.mem_map.mp hx
      by_cases hyc : y.id = c
      · simp [hyc]
      · rw [if_neg hyc] at hid
        exact absurd hid hyc

/-- Claim C1, concrete instance: setting a non-empty nickname on city 1 of
the sample store with a succeeding save answers 201 and persists the
nickname on that row. -/
theorem claim_C1_witness :
    add_city_nickname sampleStore (some 1) (some "City of Light") none =
      (⟨201, .text "Successfully added nickname."⟩, setNickname sampleStore 1 "City of Light") :=
  (((claim_C1_theorem sampleStore (some 1) (some "City of Light") none).2 1 "City of Light"
      rfl rfl (by decide)).2.2 (by decide) rfl).1

end CityApi
